import Mathlib

/-!
Shallow embedding of `src/main.rs` of the `prompt` program: a shell-prompt
renderer that issues a fixed set of external queries (git, kubectl) and reads
a few environment variables, then assembles one display line.

Each external command invocation is modelled by its observable outcome: either
the child process failed to launch (`LaunchResult.err`, Rust `io::Result::Err`)
or it produced an `Output` holding the exit-status flag and the captured
stdout.  Stdout is modelled as `Option String`: `some s` when the raw bytes
decode as UTF-8 to `s`, `none` when they do not decode (an undecodable byte
sequence is necessarily non-empty).  An `Env` fixes the outcome of every
query of one invocation, plus whether the working-tree-diff probe exceeded
its 500 ms timeout.  Functions additionally return the list of queries they
issued, and functions that can panic return `Except Unit`, `.error ()`
standing for a panic that aborts the invocation.
-/

namespace Prompt

/-- The external commands the program can invoke (fixed argument lists,
section 6 of the spec). -/
inductive Query where
  | revParseInsideWorkTree
  | branchShowCurrent
  | tagPointsAt
  | revParseShortHead
  | diffQuiet
  | diffCachedQuiet
  | lsFilesOther
  | logUpstreamHead
  | revParseHead
  | revParseUpstream
  | kubectlCurrentContext
  | kubectlViewNamespace
deriving DecidableEq

/-- Captured outcome of a child process that did launch: `success` is
`status.success()`, `stdout` is `some s` when the raw bytes decode as UTF-8
to `s` and `none` when they do not decode. -/
structure Output where
  success : Bool
  stdout : Option String
deriving DecidableEq

/-- Rust `io::Result<Output>` of launching a child process. -/
inductive LaunchResult where
  | err
  | ok (out : Output)
deriving DecidableEq

/-- The environment of one invocation: the outcome of every external query,
and whether the working-tree-diff probe exceeded its 500 ms timeout. -/
structure Env where
  run : Query → LaunchResult
  diffTimedOut : Bool

/-- Rust `x.retain(|c| !c.is_whitespace())`: drop every whitespace character,
internal ones included. -/
def stripWS (s : String) : String :=
  ⟨s.data.filter (fun c => !c.isWhitespace)⟩

/-- Rust `output.stdout.len() == 0` on the raw bytes: the empty byte string
always decodes, so undecodable stdout (`none`) is non-empty. -/
def stdoutLenZero : Option String → Bool
  | some s => s.isEmpty
  | none => false

/-- `is_in_git_repository` (main.rs lines 34-53): `git rev-parse
--is-inside-work-tree`; true only on a launch, a zero exit status and
stdout that strips to the text true. -/
def is_in_git_repository (e : Env) : Bool × List Query :=
  (match e.run .revParseInsideWorkTree with
   | .ok output =>
     if output.success then
       match output.stdout with
       | some x => stripWS x == "true"
       | none => false
     else false
   | .err => false,
   [.revParseInsideWorkTree])

/-- `get_git_branch` (lines 91-114): `git branch --show-current`; `none` on
launch failure, non-zero exit, undecodable stdout or empty stripped stdout. -/
def get_git_branch (e : Env) : Option String × List Query :=
  (match e.run .branchShowCurrent with
   | .ok output =>
     if output.success then
       match output.stdout with
       | some x =>
         if (stripWS x).isEmpty then none else some (stripWS x)
       | none => none
     else none
   | .err => none,
   [.branchShowCurrent])

/-- `get_git_tag` (lines 65-89): `git tag --points-at HEAD`; same outcome
classification as the branch query. -/
def get_git_tag (e : Env) : Option String × List Query :=
  (match e.run .tagPointsAt with
   | .ok output =>
     if output.success then
       match output.stdout with
       | some x =>
         if (stripWS x).isEmpty then none else some (stripWS x)
       | none => none
     else none
   | .err => none,
   [.tagPointsAt])

/-- `get_git_commit` (lines 116-140): `git rev-parse --short HEAD`; same
outcome classification as the branch query. -/
def get_git_commit (e : Env) : Option String × List Query :=
  (match e.run .revParseShortHead with
   | .ok output =>
     if output.success then
       match output.stdout with
       | some x =>
         if (stripWS x).isEmpty then none else some (stripWS x)
       | none => none
     else none
   | .err => none,
   [.revParseShortHead])

/-- `get_best_git_name` (lines 55-63):
`branch.unwrap_or(commit.unwrap_or("")) + tag.map(" [" + t + "]").unwrap_or("")`. -/
def get_best_git_name (e : Env) : String × List Query :=
  ((get_git_branch e).1.getD ((get_git_commit e).1.getD "") ++
     (((get_git_tag e).1.map (fun t => " [" ++ t ++ "]")).getD ""),
   (get_git_branch e).2 ++ (get_git_commit e).2 ++ (get_git_tag e).2)

/-- Rust `enum UnstagedChanges` (lines 142-146). -/
inductive UnstagedChanges where
  | None
  | FilesChanged
  | FilesNotAdded
deriving DecidableEq

/-- `get_unstaged_changes` (lines 148-183).  The working-tree diff
(`git diff --quiet`) is wrapped in a 500 ms timeout whose expiry is converted
into an error, so for the `try_join!` a timeout and a launch failure are the
same `Err`; the cached diff (`git diff --cached --quiet`) has no timeout.
Only when both probes launched and both exited zero is the untracked-file
probe (`git ls-files --other --directory --exclude-standard`) run; it yields
clean exactly when it launched and its raw stdout is empty. -/
def get_unstaged_changes (e : Env) : UnstagedChanges × List Query :=
  let output1 : Option Output :=
    if e.diffTimedOut then none
    else match e.run .diffQuiet with
         | .ok o => some o
         | .err => none
  let output2 : Option Output :=
    match e.run .diffCachedQuiet with
    | .ok o => some o
    | .err => none
  match output1, output2 with
  | some o1, some o2 =>
    if o1.success && o2.success then
      (match e.run .lsFilesOther with
       | .ok o3 => if stdoutLenZero o3.stdout then .None else .FilesNotAdded
       | .err => .FilesNotAdded,
       [.diffQuiet, .diffCachedQuiet, .lsFilesOther])
    else (.FilesChanged, [.diffQuiet, .diffCachedQuiet])
  | _, _ => (.FilesChanged, [.diffQuiet, .diffCachedQuiet])

/-- Rust `enum UnpushedChanges` (lines 185-190). -/
inductive UnpushedChanges where
  | None
  | UnpushedChanges
  | UnpulledChanges
  | NoUpstreamBranch
deriving DecidableEq

/-- Lines 212-215: the local HEAD hash as the code computes it from the
`git rev-parse HEAD` output: the stripped stdout whenever it decodes, with
no emptiness check. -/
def head_of (o : Output) : Option String :=
  o.stdout.map stripWS

/-- Lines 217-224: the upstream hash as the code computes it from the
`git rev-parse @\x7bu\x7d` output: the stripped stdout when it decodes and is
non-empty, `none` otherwise. -/
def upstream_of (o : Output) : Option String :=
  match o.stdout with
  | some x => if (stripWS x).isEmpty then none else some (stripWS x)
  | none => none

/-- `get_unpushed_changes` (lines 192-236).  Step 1 runs the upstream-range
log; the guard is `output1.map(|x| x.stdout.len() == 0).unwrap_or(false)`, so
a launch failure makes the guard false and classifies as `UnpushedChanges`
just like non-empty output.  In the empty branch both `git rev-parse HEAD`
and the upstream rev-parse are `unwrap()`ed: a launch failure of either is a
panic, modelled as `.error ()`. -/
def get_unpushed_changes (e : Env) : Except Unit (UnpushedChanges × List Query) :=
  if (match e.run .logUpstreamHead with
      | .ok o => stdoutLenZero o.stdout
      | .err => false) then
    match e.run .revParseHead, e.run .revParseUpstream with
    | .ok o2, .ok o3 =>
      .ok (if (upstream_of o3).isNone then .NoUpstreamBranch
           else if head_of o2 == upstream_of o3 then .None
           else .UnpulledChanges,
           [.logUpstreamHead, .revParseHead, .revParseUpstream])
    | _, _ => .error ()
  else
    .ok (.UnpushedChanges, [.logUpstreamHead])

/-- `get_k8s_context` (lines 238-249): `kubectl config current-context`.
The launch result is `unwrap()`ed — a launch failure panics — and the exit
status is never consulted: the value is the stripped stdout whenever it
decodes, with no emptiness check. -/
def get_k8s_context (e : Env) : Except Unit (Option String × List Query) :=
  match e.run .kubectlCurrentContext with
  | .err => .error ()
  | .ok output =>
    .ok (match output.stdout with
         | some x => some (stripWS x)
         | none => none,
         [.kubectlCurrentContext])

/-- `get_k8s_namespace` (lines 251-273): launch failure and non-zero exit
yield `none`; otherwise the stripped stdout whenever it decodes, with no
emptiness check. -/
def get_k8s_namespace (e : Env) : Option String × List Query :=
  (match e.run .kubectlViewNamespace with
   | .ok output =>
     if output.success then
       match output.stdout with
       | some x => some (stripWS x)
       | none => none
     else none
   | .err => none,
   [.kubectlViewNamespace])

/-- The environment variables the program reads (lines 275-281). -/
structure EnvVars where
  aws_profile : Option String
  aws_region : Option String
  aws_default_region : Option String
  aws_profile_region : Option String

/-- `get_aws_profile` (lines 275-277). -/
def get_aws_profile (v : EnvVars) : Option String :=
  v.aws_profile

/-- `get_aws_region` (lines 279-281): `AWS_REGION`, else
`AWS_DEFAULT_REGION`, else `AWS_PROFILE_REGION`. -/
def get_aws_region (v : EnvVars) : Option String :=
  (v.aws_region <|> v.aws_default_region) <|> v.aws_profile_region

/-- The style given to a chevron by `colored` (`plain` is `.bold()` with no
colour, the not-in-repository case). -/
inductive Color where
  | green
  | red
  | yellow
  | blue
  | white
  | plain
deriving DecidableEq

/-- Command-line arguments (lines 10-18). -/
structure Args where
  exit_code : Nat
  message : Option String

/-- What one invocation renders: the seven top-line field values before the
empty-field filter, and the three chevron styles. -/
structure Rendered where
  fields : List String
  chevron_a : Color
  chevron_b : Color
  chevron_c : Color
deriving DecidableEq

/-- Line 361: the top line keeps exactly the non-empty fields, in order,
joined by single spaces. -/
def renderLine (fields : List String) : String :=
  String.intercalate " " (fields.filter (fun x => !x.isEmpty))

/-- `main` (lines 283-366).  `current_dir_res` is `none` when
`env::current_dir()` failed, which the code `expect`s (panics); home-directory
abbreviation is out of scope and the display string is taken as given.  The
placeholder is the dash: absent context/namespace/profile/region fields and
the not-in-repository identity render as it.  The query lists of the awaited
components are concatenated; the panics of `get_k8s_context` (awaited in both
branches) and of `get_unpushed_changes` (awaited only in the repository
branch) propagate. -/
def main (args : Args) (current_dir_res : Option String) (vars : EnvVars)
    (e : Env) : Except Unit (Rendered × List Query) :=
  match current_dir_res with
  | none => .error ()
  | some current_dir =>
    match get_k8s_context e with
    | .error _ => .error ()
    | .ok c =>
      let current_context := c.1.getD "-"
      let current_namespace := (get_k8s_namespace e).1.getD "-"
      let aws_profile := (get_aws_profile vars).getD "-"
      let aws_region := (get_aws_region vars).getD "-"
      let chevron_a := if args.exit_code == 0 then Color.green else Color.red
      if (is_in_git_repository e).1 then
        match get_unpushed_changes e with
        | .error _ => .error ()
        | .ok p =>
          let chevron_b :=
            match (get_unstaged_changes e).1 with
            | .None => Color.green
            | .FilesChanged => Color.yellow
            | .FilesNotAdded => Color.blue
          let chevron_c :=
            match p.1 with
            | .None => Color.green
            | .UnpushedChanges => Color.yellow
            | .UnpulledChanges => Color.blue
            | .NoUpstreamBranch => Color.white
          .ok ({ fields := [current_dir, args.message.getD "",
                            (get_best_git_name e).1, current_context,
                            current_namespace, aws_profile, aws_region],
                 chevron_a := chevron_a, chevron_b := chevron_b,
                 chevron_c := chevron_c },
               (is_in_git_repository e).2 ++ c.2 ++ (get_k8s_namespace e).2 ++
                 (get_best_git_name e).2 ++ (get_unstaged_changes e).2 ++ p.2)
      else
        .ok ({ fields := [current_dir, args.message.getD "", "-",
                          current_context, current_namespace, aws_profile,
                          aws_region],
               chevron_a := chevron_a, chevron_b := Color.plain,
               chevron_c := Color.plain },
             (is_in_git_repository e).2 ++ c.2 ++ (get_k8s_namespace e).2)

/-- Both diff probes launched and exited with status zero, and the
working-tree diff did not exceed its 500 ms timeout: the condition under
which `get_unstaged_changes` goes on to the untracked-file probe. -/
def diffProbesOk (e : Env) : Bool :=
  !e.diffTimedOut &&
    (match e.run .diffQuiet with
     | .ok o => o.success
     | .err => false) &&
    (match e.run .diffCachedQuiet with
     | .ok o => o.success
     | .err => false)

/-- Replace the outcome of one query of an environment. -/
def setQuery (e : Env) (q : Query) (r : LaunchResult) : Env :=
  { e with run := fun q2 => if q2 = q then r else e.run q2 }

/-- An environment with no timeout, every query outcome given by `f`. -/
def okEnv (f : Query → LaunchResult) : Env :=
  { run := f, diffTimedOut := false }

/-- Every query launches, exits zero and prints nothing. -/
def envQuiet : Env :=
  okEnv (fun _ => .ok { success := true, stdout := some "" })

/-- Environment-variable model with all four variables unset. -/
def varsNone : EnvVars :=
  { aws_profile := none, aws_region := none, aws_default_region := none,
    aws_profile_region := none }

/-- Arguments: previous command succeeded, no message. -/
def args0 : Args :=
  { exit_code := 0, message := none }

/-- The unstaged classifier, rephrased by its gate: the whole decision is
the untracked-file probe's outcome when `diffProbesOk` holds, `FilesChanged`
with no untracked-file probe otherwise. -/
theorem unstaged_eq (e : Env) :
    get_unstaged_changes e =
      if diffProbesOk e then
        (match e.run .lsFilesOther with
         | .ok o3 => if stdoutLenZero o3.stdout then .None else .FilesNotAdded
         | .err => .FilesNotAdded,
         [.diffQuiet, .diffCachedQuiet, .lsFilesOther])
      else (.FilesChanged, [.diffQuiet, .diffCachedQuiet]) := by
  cases hT : e.diffTimedOut <;>
    cases h1 : e.run .diffQuiet <;>
      cases h2 : e.run .diffCachedQuiet <;>
        simp [get_unstaged_changes, diffProbesOk, hT, h1, h2]

/-- Claim C3: the unstaged-change classifier returns FilesChanged whenever
either diff probe fails or reports differences (non-zero exit, launch
failure, or the working-tree-diff probe exceeding its 500 ms timeout),
without running the untracked-file probe; when both diff probes succeed with
zero exit, it returns Clean (`None`) if the untracked-file probe's output is
empty and FilesUntracked (`FilesNotAdded`) if it is non-empty. -/
theorem claim_C3 : ∀ e : Env,
    (diffProbesOk e = false →
      (get_unstaged_changes e).1 = .FilesChanged ∧
        Query.lsFilesOther ∉ (get_unstaged_changes e).2) ∧
    (diffProbesOk e = true → ∀ o3 : Output, e.run .lsFilesOther = .ok o3 →
      (stdoutLenZero o3.stdout = true → (get_unstaged_changes e).1 = .None) ∧
      (stdoutLenZero o3.stdout = false →
        (get_unstaged_changes e).1 = .FilesNotAdded)) := by
  intro e
  refine ⟨fun hbad => ?_, fun hok o3 h3 => ⟨fun hz => ?_, fun hz => ?_⟩⟩
  · simp [unstaged_eq e, hbad]
  · simp [unstaged_eq e, hok, h3, hz]
  · simp [unstaged_eq e, hok, h3, hz]

/-- Witness for C3 at a concrete input: with every probe succeeding quietly
the classifier reports a clean tree. -/
theorem claim_C3_witness :
    (stdoutLenZero (Output.mk true (some "")).stdout = true →
      (get_unstaged_changes envQuiet).1 = .None) ∧
    (stdoutLenZero (Output.mk true (some "")).stdout = false →
      (get_unstaged_changes envQuiet).1 = .FilesNotAdded) :=
  (claim_C3 envQuiet).2 rfl { success := true, stdout := some "" } rfl

/-- Claim C9: if both diff probes succeed with zero exit but the
untracked-file probe itself fails to launch, the classifier returns
FilesUntracked (`FilesNotAdded`), not Clean and not FilesChanged. -/
theorem claim_C9 : ∀ e : Env, diffProbesOk e = true →
    e.run .lsFilesOther = LaunchResult.err →
    (get_unstaged_changes e).1 = .FilesNotAdded := by
  intro e hok h3
  simp [unstaged_eq e, hok, h3]

/-- Environment for the C9 witness: quiet diffs, untracked probe down. -/
def envLsDown : Env :=
  okEnv (fun q =>
    match q with
    | .lsFilesOther => .err
    | _ => .ok { success := true, stdout := some "" })

/-- Witness for C9 at a concrete input. -/
theorem claim_C9_witness : (get_unstaged_changes envLsDown).1 = .FilesNotAdded :=
  claim_C9 envLsDown rfl rfl

/-- Claim C4: the unpushed-change classifier returns Ahead
(`UnpushedChanges`) exactly when the upstream-to-HEAD log output is
non-empty; when that output is empty it returns NoUpstream
(`NoUpstreamBranch`) if the upstream ref fails to resolve, Synced (`None`)
if the local HEAD hash equals the upstream hash, and Behind
(`UnpulledChanges`) if the two hashes differ. -/
theorem claim_C4 : ∀ (e : Env) (o1 : Output),
    e.run .logUpstreamHead = .ok o1 →
    (stdoutLenZero o1.stdout = false →
      get_unpushed_changes e = .ok (.UnpushedChanges, [.logUpstreamHead])) ∧
    (∀ r, get_unpushed_changes e = .ok r → r.1 = .UnpushedChanges →
      stdoutLenZero o1.stdout = false) ∧
    (stdoutLenZero o1.stdout = true →
      ∀ o2 o3 : Output, e.run .revParseHead = .ok o2 →
        e.run .revParseUpstream = .ok o3 →
        (upstream_of o3 = none →
          get_unpushed_changes e =
            .ok (.NoUpstreamBranch,
              [.logUpstreamHead, .revParseHead, .revParseUpstream])) ∧
        (upstream_of o3 ≠ none → head_of o2 = upstream_of o3 →
          get_unpushed_changes e =
            .ok (.None, [.logUpstreamHead, .revParseHead, .revParseUpstream])) ∧
        (upstream_of o3 ≠ none → head_of o2 ≠ upstream_of o3 →
          get_unpushed_changes e =
            .ok (.UnpulledChanges,
              [.logUpstreamHead, .revParseHead, .revParseUpstream]))) := by
  intro e o1 h1
  refine ⟨fun hne => ?_, fun r hr hA => ?_,
    fun hz o2 o3 h2 h3 => ⟨fun hu => ?_, fun hu hh => ?_, fun hu hh => ?_⟩⟩
  · simp [get_unpushed_changes, h1, hne]
  · cases hz2 : stdoutLenZero o1.stdout
    · rfl
    · exfalso
      simp only [get_unpushed_changes, h1, hz2, if_true] at hr
      cases hrp : e.run .revParseHead <;> cases hru : e.run .revParseUpstream <;>
        simp only [hrp, hru] at hr
      · exact absurd hr (by simp)
      · exact absurd hr (by simp)
      · exact absurd hr (by simp)
      · rename_i o2 o3
        rw [Except.ok.injEq] at hr
        rw [← hr] at hA
        by_cases hu : (upstream_of o3).isNone
        · simp [hu] at hA
        · by_cases hh : head_of o2 == upstream_of o3
          · simp [hu, hh] at hA
          · simp [hu, hh] at hA
  · simp [get_unpushed_changes, h1, hz, h2, h3, hu]
  · simp [get_unpushed_changes, h1, hz, h2, h3, Option.isNone_iff_eq_none, hu, hh]
  · simp [get_unpushed_changes, h1, hz, h2, h3, Option.isNone_iff_eq_none, hu, hh]

/-- Environment for the C4 witness: the upstream-range log reports one
commit ahead. -/
def envAhead : Env :=
  okEnv (fun q =>
    match q with
    | .logUpstreamHead => .ok { success := true, stdout := some "c" }
    | _ => .ok { success := true, stdout := some "" })

/-- Witness for C4 at a concrete input: non-empty log output classifies as
Ahead with no further queries. -/
theorem claim_C4_witness :
    get_unpushed_changes envAhead = .ok (.UnpushedChanges, [.logUpstreamHead]) :=
  (claim_C4 envAhead { success := true, stdout := some "c" } rfl).1 rfl

/-- Claim C5 (amended): a step-1 log query that produces an output with
empty stdout is treated identically to a successful empty result — the exit
status is never consulted and classification proceeds to the
hash-comparison stage; a process-launch failure of the log query is NOT so
treated (see the counterexample: it classifies as Ahead directly). -/
theorem claim_C5 : ∀ (e : Env) (o1 : Output),
    e.run .logUpstreamHead = .ok o1 → stdoutLenZero o1.stdout = true →
    get_unpushed_changes e =
      get_unpushed_changes
        (setQuery e .logUpstreamHead
          (.ok { success := true, stdout := some "" })) := by
  intro e o1 h1 hz
  simp [get_unpushed_changes, setQuery, h1, hz,
    (show stdoutLenZero (some "") = true from rfl)]

/-- Environment for the C5 counterexample: the step-1 log query fails to
launch, every other query succeeds quietly. -/
def envLogDown : Env :=
  okEnv (fun q =>
    match q with
    | .logUpstreamHead => .err
    | _ => .ok { success := true, stdout := some "" })

/-- Counterexample to C5 as stated: when the step-1 log query fails to
launch, the classifier returns Ahead (`UnpushedChanges`) directly, whereas
treating the failure as empty output would proceed to the hash stage and
return NoUpstream here — so a launch failure is not treated identically to
empty output. -/
theorem claim_C5_cex :
    get_unpushed_changes envLogDown =
        .ok (.UnpushedChanges, [.logUpstreamHead]) ∧
      get_unpushed_changes
          (setQuery envLogDown .logUpstreamHead
            (.ok { success := true, stdout := some "" })) =
        .ok (.NoUpstreamBranch,
          [.logUpstreamHead, .revParseHead, .revParseUpstream]) :=
  ⟨rfl, rfl⟩

/-- Environment for the C5 witness: the log query exits non-zero with empty
stdout (the no-upstream shape). -/
def envLogFail : Env :=
  okEnv (fun q =>
    match q with
    | .logUpstreamHead => .ok { success := false, stdout := some "" }
    | _ => .ok { success := true, stdout := some "" })

/-- Witness for C5 at a concrete input. -/
theorem claim_C5_witness :
    get_unpushed_changes envLogFail =
      get_unpushed_changes
        (setQuery envLogFail .logUpstreamHead
          (.ok { success := true, stdout := some "" })) :=
  claim_C5 envLogFail { success := false, stdout := some "" } rfl rfl

/-- Modelled from the spec's words (section 4.3): the primary label is the
branch name when non-empty, else the short commit hash, else the empty
string; a resolved tag is appended after a separating space in brackets. -/
def identitySpec (branch commit tag : Option String) : String :=
  (match branch with
   | some b => if b.isEmpty then commit.getD "" else b
   | none => commit.getD "") ++
  (match tag with
   | some t => " [" ++ t ++ "]"
   | none => "")

/-- The branch query never resolves to the empty string: an empty stripped
stdout is mapped to `none`. -/
theorem get_git_branch_not_empty (e : Env) (s : String)
    (h : (get_git_branch e).1 = some s) : s.isEmpty = false := by
  unfold get_git_branch at h
  cases h1 : e.run .branchShowCurrent <;> rw [h1] at h
  · simp at h
  · rename_i o
    cases hs : o.success
    · simp [hs] at h
    · cases ho : o.stdout
      · simp [hs, ho] at h
      · rename_i x
        cases hx : (stripWS x).isEmpty
        · simp [hs, ho, hx] at h
          exact h ▸ hx
        · simp [hs, ho, hx] at h

/-- Environment for the C7 examples: branch feature-x, tag v1.0. -/
def envFeatureTag : Env :=
  okEnv (fun q =>
    match q with
    | .branchShowCurrent => .ok { success := true, stdout := some "feature-x\n" }
    | .tagPointsAt => .ok { success := true, stdout := some "v1.0\n" }
    | _ => .ok { success := true, stdout := some "" })

/-- Environment for the C7 examples: no branch, commit abc123, no tag. -/
def envCommitOnly : Env :=
  okEnv (fun q =>
    match q with
    | .revParseShortHead => .ok { success := true, stdout := some "abc123\n" }
    | _ => .ok { success := true, stdout := some "" })

/-- Claim C7: the identity resolver's primary label is the branch name when
non-empty, else the short commit hash, else the empty label; when a tag
resolves, the identity is the primary label followed by a space and the tag
in brackets; in particular branch feature-x with tag v1.0 gives the string
feature-x [v1.0], and no branch with commit abc123 and no tag gives
abc123. -/
theorem claim_C7 :
    (∀ e : Env, (get_best_git_name e).1 =
      identitySpec (get_git_branch e).1 (get_git_commit e).1 (get_git_tag e).1) ∧
    (get_best_git_name envFeatureTag).1 = "feature-x [v1.0]" ∧
    (get_best_git_name envCommitOnly).1 = "abc123" := by
  refine ⟨fun e => ?_, rfl, rfl⟩
  cases hb : (get_git_branch e).1
  · cases ht : (get_git_tag e).1 <;>
      simp [get_best_git_name, identitySpec, hb, ht]
  · rename_i b
    cases ht : (get_git_tag e).1 <;>
      simp [get_best_git_name, identitySpec, hb, ht,
        get_git_branch_not_empty e b hb]

/-- Environment for the C6 counterexample: inside a repository, none of
branch, tag and commit resolve, the log reports commits ahead, and the
orchestrator queries resolve to ctx and ns. -/
def envNoIdentity : Env :=
  okEnv (fun q =>
    match q with
    | .revParseInsideWorkTree => .ok { success := true, stdout := some "true\n" }
    | .logUpstreamHead => .ok { success := true, stdout := some "x" }
    | .kubectlCurrentContext => .ok { success := true, stdout := some "ctx" }
    | .kubectlViewNamespace => .ok { success := true, stdout := some "ns" }
    | _ => .ok { success := true, stdout := some "" })

/-- Counterexample to C6 as stated: with nothing resolved the identity IS
the empty string, and the rendered line omits it instead of showing a
placeholder — the line is the working directory, the two orchestrator
fields and the two cloud placeholders, with no dash where the identity
would be. -/
theorem claim_C6_cex :
    (get_best_git_name envNoIdentity).1 = "" ∧
      (main args0 (some "/w") varsNone envNoIdentity).map
          (fun p => renderLine p.1.fields) = .ok "/w ctx ns - -" ∧
      ("/w ctx ns - -" : String) ≠ "/w - ctx ns - -" :=
  ⟨rfl, rfl, by decide⟩

/-- Claim C6 (amended): when none of branch, tag and commit resolve, the
identity produced by the resolver is the empty string (not an absent
value), and the merge step omits any empty field from the rendered line
entirely, so no placeholder is rendered for it. -/
theorem claim_C6 : ∀ e : Env,
    (get_git_branch e).1 = none → (get_git_commit e).1 = none →
    (get_git_tag e).1 = none →
    (get_best_git_name e).1 = "" ∧
      ∀ (pre post : List String),
        renderLine (pre ++ "" :: post) = renderLine (pre ++ post) := by
  intro e hb hc ht
  constructor
  · simp [get_best_git_name, hb, hc, ht]
  · intro pre post
    simp [renderLine, List.filter_append, List.filter_cons,
      (show ("" : String).isEmpty = true from rfl)]

/-- Witness for C6 at a concrete input. -/
theorem claim_C6_witness :
    (get_best_git_name envNoIdentity).1 = "" ∧
      ∀ (pre post : List String),
        renderLine (pre ++ "" :: post) = renderLine (pre ++ post) :=
  claim_C6 envNoIdentity rfl rfl rfl

/-- Environment for the C1 counterexample: the orchestrator-context query
exits non-zero yet prints foo. -/
def envBadExit : Env :=
  okEnv (fun q =>
    match q with
    | .kubectlCurrentContext => .ok { success := false, stdout := some "foo" }
    | _ => .ok { success := true, stdout := some "" })

/-- Counterexample to C1 as stated: the orchestrator-context query exits
with non-zero status and stdout foo, yet the resulting value is present
(some foo), not absent. -/
theorem claim_C1_cex :
    get_k8s_context envBadExit = .ok (some "foo", [.kubectlCurrentContext]) ∧
      (some "foo" : Option String) ≠ none :=
  ⟨rfl, by simp⟩

/-- Claim C1 (amended): for the repository probe, the branch, tag and
commit queries and the orchestrator-namespace query, a child process that
exits with non-zero status yields an absent value regardless of stdout; the
orchestrator-context query however never consults the exit status: whenever
its raw output decodes as UTF-8, the resulting value is the stripped
stdout. -/
theorem claim_C1 : ∀ (e : Env) (o : Output), o.success = false →
    (e.run .branchShowCurrent = .ok o → (get_git_branch e).1 = none) ∧
    (e.run .tagPointsAt = .ok o → (get_git_tag e).1 = none) ∧
    (e.run .revParseShortHead = .ok o → (get_git_commit e).1 = none) ∧
    (e.run .kubectlViewNamespace = .ok o → (get_k8s_namespace e).1 = none) ∧
    (e.run .revParseInsideWorkTree = .ok o →
      (is_in_git_repository e).1 = false) ∧
    (∀ o2 : Output, e.run .kubectlCurrentContext = .ok o2 →
      get_k8s_context e =
        .ok (o2.stdout.map stripWS, [.kubectlCurrentContext])) := by
  intro e o hs
  refine ⟨fun h => ?_, fun h => ?_, fun h => ?_, fun h => ?_, fun h => ?_,
    fun o2 h => ?_⟩
  · simp [get_git_branch, h, hs]
  · simp [get_git_tag, h, hs]
  · simp [get_git_commit, h, hs]
  · simp [get_k8s_namespace, h, hs]
  · simp [is_in_git_repository, h, hs]
  · cases ho : o2.stdout <;> simp [get_k8s_context, h, ho]

/-- Environment for the C1 witness: every query exits non-zero while
printing the word main. -/
def envAllFail : Env :=
  okEnv (fun _ => .ok { success := false, stdout := some "main" })

/-- Witness for C1 at a concrete input: despite stdout main, the branch and
namespace values are absent on non-zero exit. -/
theorem claim_C1_witness :
    (get_git_branch envAllFail).1 = none ∧
      (get_k8s_namespace envAllFail).1 = none :=
  ⟨(claim_C1 envAllFail { success := false, stdout := some "main" } rfl).1 rfl,
   (claim_C1 envAllFail
      { success := false, stdout := some "main" } rfl).2.2.2.1 rfl⟩

/-- The orchestrator-context collector panics exactly when its process
fails to launch. -/
theorem k8s_context_error_iff (e : Env) :
    get_k8s_context e = .error () ↔
      e.run .kubectlCurrentContext = LaunchResult.err := by
  cases h : e.run .kubectlCurrentContext <;> simp [get_k8s_context, h]

/-- The unpushed classifier panics exactly when the log output is empty and
one of the two hash queries fails to launch. -/
theorem unpushed_error_iff (e : Env) :
    get_unpushed_changes e = .error () ↔
      ((match e.run .logUpstreamHead with
        | .ok o => stdoutLenZero o.stdout
        | .err => false) = true ∧
        (e.run .revParseHead = LaunchResult.err ∨
          e.run .revParseUpstream = LaunchResult.err)) := by
  cases h1 : e.run .logUpstreamHead
  · simp [get_unpushed_changes, h1]
  · rename_i o1
    cases hz : stdoutLenZero o1.stdout
    · simp [get_unpushed_changes, h1, hz]
    · cases h2 : e.run .revParseHead <;> cases h3 : e.run .revParseUpstream <;>
        simp [get_unpushed_changes, h1, hz, h2, h3]

/-- A successful orchestrator-context collection issued exactly the
current-context query. -/
theorem k8s_context_ok_queries (e : Env) (c : Option String × List Query)
    (h : get_k8s_context e = .ok c) : c.2 = [Query.kubectlCurrentContext] := by
  unfold get_k8s_context at h
  cases h1 : e.run .kubectlCurrentContext <;> rw [h1] at h
  · exact absurd h (by simp)
  · rw [Except.ok.injEq] at h
    rw [← h]

/-- Environment for the C2 counterexample: the orchestrator-context query
fails to launch, every other query succeeds quietly. -/
def envKubeDown : Env :=
  okEnv (fun q =>
    match q with
    | .kubectlCurrentContext => .err
    | _ => .ok { success := true, stdout := some "" })

/-- Counterexample to C2 as stated: the working directory is available,
yet the invocation aborts — a launch failure of the orchestrator-context
query panics instead of degrading to an absent value. -/
theorem claim_C2_cex :
    main args0 (some "/w") varsNone envKubeDown = .error () ∧
      (some "/w" : Option String) ≠ none :=
  ⟨rfl, by simp⟩

/-- Claim C2 (amended): the invocation aborts exactly when the working
directory cannot be determined, when the orchestrator-context query fails
to launch, or when — inside a repository — the unpushed classifier panics,
which happens exactly when the upstream-range log output is empty and one
of its two hash queries fails to launch; every other external-query outcome
degrades to an absent value or failure state. -/
theorem claim_C2 : ∀ (args : Args) (cwd : Option String) (vars : EnvVars)
    (e : Env),
    (get_k8s_context e = .error () ↔
      e.run .kubectlCurrentContext = LaunchResult.err) ∧
    (get_unpushed_changes e = .error () ↔
      ((match e.run .logUpstreamHead with
        | .ok o => stdoutLenZero o.stdout
        | .err => false) = true ∧
        (e.run .revParseHead = LaunchResult.err ∨
          e.run .revParseUpstream = LaunchResult.err))) ∧
    (main args cwd vars e = .error () ↔
      (cwd = none ∨ e.run .kubectlCurrentContext = LaunchResult.err ∨
        ((is_in_git_repository e).1 = true ∧
          get_unpushed_changes e = .error ()))) := by
  intro args cwd vars e
  refine ⟨k8s_context_error_iff e, unpushed_error_iff e, ?_⟩
  cases cwd
  · simp [main]
  · rename_i d
    rw [← k8s_context_error_iff e]
    cases hctx : get_k8s_context e
    · rename_i u
      cases u
      simp [main, hctx]
    · rename_i c
      cases hrep : (is_in_git_repository e).1
      · simp [main, hctx, hrep]
      · cases hp : get_unpushed_changes e
        · rename_i u
          cases u
          simp [main, hctx, hrep, hp]
        · rename_i p
          simp [main, hctx, hrep, hp]

/-- Claim C8: when the repository probe returns false, the identity
resolver and both change classifiers issue none of their underlying queries
(the issued list is exactly the probe and the two orchestrator queries),
the identity field takes the placeholder and both status chevrons are
plain; the orchestrator collectors run in every invocation. -/
theorem claim_C8 : ∀ (args : Args) (cwd : String) (vars : EnvVars) (e : Env)
    (r : Rendered) (qs : List Query),
    main args (some cwd) vars e = .ok (r, qs) →
    (Query.kubectlCurrentContext ∈ qs ∧ Query.kubectlViewNamespace ∈ qs) ∧
    ((is_in_git_repository e).1 = false →
      qs = [.revParseInsideWorkTree, .kubectlCurrentContext,
            .kubectlViewNamespace] ∧
        r.fields[2]? = some "-" ∧ r.chevron_b = .plain ∧
        r.chevron_c = .plain) := by
  intro args cwd vars e r qs hm
  cases hctx : get_k8s_context e
  · rename_i u
    cases u
    simp [main, hctx] at hm
  · rename_i c
    have hc2 : c.2 = [Query.kubectlCurrentContext] :=
      k8s_context_ok_queries e c hctx
    cases hrep : (is_in_git_repository e).1
    · simp only [main, hctx, hrep, Bool.false_eq_true, if_false] at hm
      rw [Except.ok.injEq, Prod.mk.injEq] at hm
      obtain ⟨hr, hq⟩ := hm
      subst hr
      subst hq
      refine ⟨⟨?_, ?_⟩, fun _ => ⟨?_, rfl, rfl, rfl⟩⟩
      · simp [is_in_git_repository, get_k8s_namespace, hc2]
      · simp [is_in_git_repository, get_k8s_namespace]
      · simp [is_in_git_repository, get_k8s_namespace, hc2]
    · cases hp : get_unpushed_changes e
      · rename_i u
        cases u
        simp [main, hctx, hrep, hp] at hm
      · rename_i p
        simp only [main, hctx, hrep, if_true, hp] at hm
        rw [Except.ok.injEq, Prod.mk.injEq] at hm
        obtain ⟨hr, hq⟩ := hm
        subst hr
        subst hq
        refine ⟨⟨?_, ?_⟩, fun hf => absurd hf (by decide)⟩
        · simp [is_in_git_repository, get_k8s_namespace, hc2]
        · simp [is_in_git_repository, get_k8s_namespace]

/-- Witness for C8 at a concrete input: outside a repository the issued
queries are exactly the probe and the two orchestrator queries. -/
theorem claim_C8_witness :
    (Query.kubectlCurrentContext ∈
        ([.revParseInsideWorkTree, .kubectlCurrentContext,
          .kubectlViewNamespace] : List Query) ∧
      Query.kubectlViewNamespace ∈
        ([.revParseInsideWorkTree, .kubectlCurrentContext,
          .kubectlViewNamespace] : List Query)) ∧
    ((is_in_git_repository envQuiet).1 = false →
      ([.revParseInsideWorkTree, .kubectlCurrentContext,
        .kubectlViewNamespace] : List Query) =
          [.revParseInsideWorkTree, .kubectlCurrentContext,
           .kubectlViewNamespace] ∧
        (Rendered.mk ["/w", "", "-", "", "", "-", "-"]
            Color.green Color.plain Color.plain).fields[2]? = some "-" ∧
        (Rendered.mk ["/w", "", "-", "", "", "-", "-"]
            Color.green Color.plain Color.plain).chevron_b = .plain ∧
        (Rendered.mk ["/w", "", "-", "", "", "-", "-"]
            Color.green Color.plain Color.plain).chevron_c = .plain) :=
  claim_C8 args0 "/w" varsNone envQuiet
    (Rendered.mk ["/w", "", "-", "", "", "-", "-"]
      Color.green Color.plain Color.plain)
    [.revParseInsideWorkTree, .kubectlCurrentContext, .kubectlViewNamespace]
    rfl

/-- Environment for the C10 example: not in a repository; the orchestrator
context resolves to whitespace-only output (empty after stripping) and the
namespace to empty output. -/
def envEmptyCtx : Env :=
  okEnv (fun q =>
    match q with
    | .kubectlCurrentContext => .ok { success := true, stdout := some "\n" }
    | _ => .ok { success := true, stdout := some "" })

/-- Claim C10: the rendered top line contains exactly the non-empty fields
in the fixed order working-directory, message, identity, orchestrator
context, orchestrator namespace, cloud profile, cloud region, joined by
single spaces; an empty field is omitted entirely — in particular a
successfully resolved but empty orchestrator context or namespace is
omitted rather than shown as the dash placeholder. -/
theorem claim_C10 :
    (∀ (args : Args) (cwd : String) (vars : EnvVars) (e : Env)
      (c : Option String × List Query) (r : Rendered) (qs : List Query),
      main args (some cwd) vars e = .ok (r, qs) →
      get_k8s_context e = .ok c →
      r.fields = [cwd, args.message.getD "",
                  (if (is_in_git_repository e).1 then (get_best_git_name e).1
                   else "-"),
                  c.1.getD "-", (get_k8s_namespace e).1.getD "-",
                  (get_aws_profile vars).getD "-",
                  (get_aws_region vars).getD "-"] ∧
        renderLine r.fields =
          String.intercalate " " (r.fields.filter (fun x => !x.isEmpty))) ∧
    (∀ (pre post : List String),
      renderLine (pre ++ "" :: post) = renderLine (pre ++ post)) ∧
    (main args0 (some "/w") varsNone envEmptyCtx).map
        (fun p => renderLine p.1.fields) = .ok "/w - - -" ∧
    ("/w - - -" : String) ≠ "/w - - - - -" := by
  refine ⟨?_, ?_, rfl, by decide⟩
  · intro args cwd vars e c r qs hm hctx
    cases hrep : (is_in_git_repository e).1
    · simp only [main, hctx, hrep, Bool.false_eq_true, if_false] at hm
      rw [Except.ok.injEq, Prod.mk.injEq] at hm
      obtain ⟨hr, hq⟩ := hm
      subst hr
      exact ⟨by simp, rfl⟩
    · cases hp : get_unpushed_changes e
      · rename_i u
        cases u
        simp [main, hctx, hrep, hp] at hm
      · rename_i p
        simp only [main, hctx, hrep, if_true, hp] at hm
        rw [Except.ok.injEq, Prod.mk.injEq] at hm
        obtain ⟨hr, hq⟩ := hm
        subst hr
        exact ⟨by simp, rfl⟩
  · intro pre post
    simp [renderLine, List.filter_append, List.filter_cons,
      (show ("" : String).isEmpty = true from rfl)]

end Prompt
